import Mathlib

/-!
# Verification of the wxauto4 bridge core (commands.py / ws_client.py)

Shallow embedding of the device-side protocol bridge:
* a JSON value model with Python truthiness, `or`-defaulting and `dict.get`,
* the command dispatcher `CommandHandler.handle` and its per-action handlers,
* the message cache (`register_message` / `_find_msg`),
* the transport layer's `_on_message` ack-then-dispatch logic, the outbound
  envelope builders (`send_ack`, `send_command_result`), and one iteration of
  the sender loop (`_sender_loop`).

External collaborators (the `WeChat` automation engine, `Chat`, `WxResponse`)
are not part of the bridge sources; they enter only through an oracle recording
whether each call raises or returns a value.
-/

/-- A parsed JSON value, as handled by the Python bridge after `json.loads`.
Numbers are modelled as rationals (covering Python ints and the floats the
bridge uses, e.g. `force_wait = 0.5`, `timeoutMs / 1000.0`). -/
inductive Json where
  | null : Json
  | bool : Bool → Json
  | num : Rat → Json
  | str : String → Json
  | arr : List Json → Json
  | obj : List (String × Json) → Json

/-- Python truthiness (`bool(x)`): `None`, `False`, `0`, `""`, `[]`, `{}` are
falsy, everything else truthy. -/
def truthy : Json → Bool
  | Json.null => false
  | Json.bool b => b
  | Json.num n => n != 0
  | Json.str s => s != ""
  | Json.arr xs => !xs.isEmpty
  | Json.obj fs => !fs.isEmpty

/-- Python `a or b`: `a` when truthy, else `b`. -/
def pyOr (a b : Json) : Json := if truthy a then a else b

/-- `d.get(k, default)` on a Python dict: the stored value when the key is
present (even if that value is `None`), the default otherwise; non-dicts never
reach a `.get` call in the modelled code paths, and are mapped to the default. -/
def Json.getD : Json → String → Json → Json
  | Json.obj fs, k, d =>
    match fs.find? (fun p => p.1 == k) with
    | some p => p.2
    | none => d
  | _, _, d => d

/-- `d.get(k)` on a Python dict (default `None`). -/
def Json.get (j : Json) (k : String) : Json := j.getD k Json.null

/-- `isinstance(x, dict)`. -/
def Json.isObj : Json → Bool
  | Json.obj _ => true
  | _ => false

/-- Python `x is None`. -/
def Json.isNull : Json → Bool
  | Json.null => true
  | _ => false

/-- Python `x == s` for a string literal `s` (equal only when `x` is that
string; cross-type comparisons are `False`). -/
def Json.isLit : Json → String → Bool
  | Json.str t, s => t == s
  | _, _ => false

/-- Python `repr(x)` for the JSON fragment the bridge manipulates (used by
`str()` on containers and inside f-strings such as the add_listener error
message). Container rendering follows CPython's `[x, y]` / `{k: v}` shape. -/
def pyRepr : Json → String
  | Json.null => "None"
  | Json.bool true => "True"
  | Json.bool false => "False"
  | Json.num n => toString n
  | Json.str s => "\x27" ++ s ++ "\x27"
  | Json.arr xs =>
      "[" ++ String.intercalate ", " (xs.attach.map (fun x => pyRepr x.1)) ++ "]"
  | Json.obj fs =>
      "\x7b" ++ String.intercalate ", "
        (fs.attach.map (fun p => "\x27" ++ p.1.1 ++ "\x27: " ++ pyRepr p.1.2)) ++ "\x7d"
decreasing_by
  all_goals simp_wf
  · have := List.sizeOf_lt_of_mem x.2
    omega
  · obtain ⟨⟨a, b⟩, hp⟩ := p
    have h1 := List.sizeOf_lt_of_mem hp
    simp only [Prod.mk.sizeOf_spec] at h1
    simp only []
    omega

/-- Python `str(x)`: the string itself for strings, `repr` otherwise (exactly
how the bridge's `str(mid)` / `str(ident)` / f-string interpolations behave on
these values). -/
def pyStr : Json → String
  | Json.str s => s
  | j => pyRepr j

/-- Modelled from the spec: the consumed automation interface (`WeChat`,
`Chat`, `WxResponse` live outside the bridge sources). A call on it either
raises an exception carrying a message, or returns a value; per spec §6 the
returned response's boolean reflects success/failure, modelled by the Json
value's truthiness. -/
inductive WxCall where
  | raises : String → WxCall
  | returns : Json → WxCall

/-- Modelled from the spec: the chat context attached to a cached message
(opaque to the bridge; only stored and returned). -/
structure Chat where
  tag : Nat

/-- Modelled from the spec: a cached message object. `id`/`hash` play the role
of `getattr(msg, "id"/"hash", None)` (absent attribute = `Json.null`);
`quoteFn`/`forwardFn` are the message's `quote(text, at)` / `forward(targets)`
capabilities. -/
structure Msg where
  id : Json
  hash : Json
  quoteFn : Json → Json → WxCall
  forwardFn : Json → WxCall

/-- Modelled from the spec: the `WeChat` automation oracle consumed by the
dispatcher, one field per capability it invokes. -/
structure WxOracle where
  sendMsg : Json → Json → Json → Json → Json → WxCall
  sendFiles : Json → Json → Json → WxCall
  chatWith : Json → Json → Json → Json → WxCall
  addListenChat : Json → WxCall
  removeListenChat : Json → WxCall
  hasListenerThread : Bool
  listenerThreadAlive : Bool
  startListening : WxCall
  listenerStart : WxCall
  stopListening : WxCall

/-- The message cache `_msg_cache : Dict[str, Tuple[Any, Chat]]`. -/
abbrev MsgCache := List (String × (Msg × Chat))

/-- Python dict assignment `d[k] = v` (overwrite in place, append if new). -/
def dictSet {α : Type} : List (String × α) → String → α → List (String × α)
  | [], k, v => [(k, v)]
  | (k', v') :: rest, k, v =>
      if k' = k then (k, v) :: rest else (k', v') :: dictSet rest k v

/-- Python dict lookup `d.get(k)` as an `Option`. -/
def dictGet {α : Type} : List (String × α) → String → Option α
  | [], _ => none
  | (k', v') :: rest, k => if k' = k then some v' else dictGet rest k

/-- `CommandHandler.register_message`: cache the message under `str(id)` and
`str(hash)`, each only when the attribute is truthy. -/
def register_message (cache : MsgCache) (msg : Msg) (chat : Chat) : MsgCache :=
  let c1 := if truthy msg.id then dictSet cache (pyStr msg.id) (msg, chat) else cache
  if truthy msg.hash then dictSet c1 (pyStr msg.hash) (msg, chat) else c1

/-- `CommandHandler._find_msg`: `self._msg_cache.get(str(ident))`. -/
def find_msg (cache : MsgCache) (ident : Json) : Option (Msg × Chat) :=
  dictGet cache (pyStr ident)

/-- Outcome of running `_exec` (or of `_run_with_timeout` around it):
a returned result mapping, a `TimeoutError`, a `ValueError`, or any other
exception (Python `except Exception`). -/
inductive ExecOutcome where
  | ok : Json → ExecOutcome
  | timeoutErr : ExecOutcome
  | valueErr : String → ExecOutcome
  | execErr : String → ExecOutcome

/-- `_handle_send_text`. -/
def handle_send_text (wx : WxOracle) (params : Json) : ExecOutcome :=
  let to_ := params.get "to"
  let text := params.get "text"
  if !truthy text then ExecOutcome.valueErr "缺少 text"
  else
    let clear := params.getD "clear" (Json.bool true)
    let at_ := params.get "at"
    let exact := params.getD "exact" (Json.bool false)
    match wx.sendMsg text to_ clear at_ exact with
    | WxCall.raises m => ExecOutcome.execErr m
    | WxCall.returns resp =>
        if !truthy resp then ExecOutcome.execErr (pyStr (resp.get "message"))
        else ExecOutcome.ok (Json.obj [("message", resp.get "message")])

/-- `_handle_send_files`. -/
def handle_send_files (wx : WxOracle) (params : Json) : ExecOutcome :=
  let to_ := params.get "to"
  let files := pyOr (params.get "files") (params.get "file")
  let exact := params.getD "exact" (Json.bool false)
  if !truthy files then ExecOutcome.valueErr "缺少 files"
  else
    match wx.sendFiles files to_ exact with
    | WxCall.raises m => ExecOutcome.execErr m
    | WxCall.returns resp =>
        if !truthy resp then ExecOutcome.execErr (pyStr (resp.get "message"))
        else ExecOutcome.ok (Json.obj [("message", resp.get "message")])

/-- The `0.5` default of `force_wait` in `_handle_chat_with`. -/
def forceWaitDefault : Rat := 1 / 2

/-- `_handle_chat_with`: a `None` return from `ChatWith` yields `ok = True`
(`bool(result) if result is not None else True`). -/
def handle_chat_with (wx : WxOracle) (params : Json) : ExecOutcome :=
  let who := pyOr (params.get "to") (params.get "who")
  let exact := params.getD "exact" (Json.bool true)
  let force := params.getD "force" (Json.bool false)
  let forceWait := params.getD "force_wait" (Json.num forceWaitDefault)
  if !truthy who then ExecOutcome.valueErr "缺少 to/who"
  else
    match wx.chatWith who exact force forceWait with
    | WxCall.raises m => ExecOutcome.execErr m
    | WxCall.returns result =>
        let ok := if result.isNull then true else truthy result
        if !ok then ExecOutcome.execErr "切换会话失败"
        else ExecOutcome.ok (Json.obj [("result", Json.bool true)])

/-- The `for w in who` loop of `_handle_add_listener` over a list target:
collects the entries whose `AddListenChat` returned falsy; a raising call
aborts the loop with that exception. -/
def addListenLoop (wx : WxOracle) : List Json → Except String (List Json)
  | [] => Except.ok []
  | w :: ws =>
      match wx.addListenChat w with
      | WxCall.raises m => Except.error m
      | WxCall.returns r =>
          match addListenLoop wx ws with
          | Except.error m => Except.error m
          | Except.ok errs => Except.ok (if truthy r then errs else w :: errs)

/-- `_handle_add_listener`. -/
def handle_add_listener (wx : WxOracle) (params : Json) : ExecOutcome :=
  let who := pyOr (params.get "who") (params.get "to")
  if !truthy who then ExecOutcome.valueErr "缺少 who/to"
  else
    match who with
    | Json.arr ws =>
        match addListenLoop wx ws with
        | Except.error m => ExecOutcome.execErr m
        | Except.ok errs =>
            if !errs.isEmpty then
              ExecOutcome.execErr ("以下对象添加监听失败: " ++ pyRepr (Json.arr errs))
            else ExecOutcome.ok (Json.obj [("result", Json.bool true)])
    | w =>
        match wx.addListenChat w with
        | WxCall.raises m => ExecOutcome.execErr m
        | WxCall.returns r =>
            if !truthy r then ExecOutcome.execErr "添加监听失败"
            else ExecOutcome.ok (Json.obj [("result", Json.bool true)])

/-- `_handle_remove_listener`. -/
def handle_remove_listener (wx : WxOracle) (params : Json) : ExecOutcome :=
  let who := pyOr (params.get "who") (params.get "to")
  if !truthy who then ExecOutcome.valueErr "缺少 who/to"
  else
    match wx.removeListenChat who with
    | WxCall.raises m => ExecOutcome.execErr m
    | WxCall.returns resp =>
        if !truthy resp then ExecOutcome.execErr (pyStr (resp.get "message"))
        else ExecOutcome.ok (Json.obj [("result", Json.bool true)])

/-- `_handle_start_listening`: no-op when the listener thread is alive, else
`StartListening()` with `_listener_start()` as fallback; any failure of the
whole block becomes `RuntimeError("启动监听失败")`. -/
def handle_start_listening (wx : WxOracle) : ExecOutcome :=
  if wx.hasListenerThread && wx.listenerThreadAlive then
    ExecOutcome.ok (Json.obj [("result", Json.bool true)])
  else
    match wx.startListening with
    | WxCall.returns _ => ExecOutcome.ok (Json.obj [("result", Json.bool true)])
    | WxCall.raises _ =>
        match wx.listenerStart with
        | WxCall.returns _ => ExecOutcome.ok (Json.obj [("result", Json.bool true)])
        | WxCall.raises _ => ExecOutcome.execErr "启动监听失败"

/-- `_handle_stop_listening`. -/
def handle_stop_listening (wx : WxOracle) : ExecOutcome :=
  if wx.hasListenerThread then
    match wx.stopListening with
    | WxCall.raises _ => ExecOutcome.execErr "停止监听失败"
    | WxCall.returns _ => ExecOutcome.ok (Json.obj [("result", Json.bool true)])
  else ExecOutcome.ok (Json.obj [("result", Json.bool true)])

/-- `_handle_quote`: resolve `id`/`hash` in the message cache, then delegate
to the cached message's `quote` capability. -/
def handle_quote (cache : MsgCache) (params : Json) : ExecOutcome :=
  let ident := pyOr (params.get "id") (params.get "hash")
  let text := params.get "text"
  let at_ := params.get "at"
  if !truthy ident || !truthy text then ExecOutcome.valueErr "缺少 id/hash 或 text"
  else
    match find_msg cache ident with
    | none => ExecOutcome.execErr "未找到目标消息"
    | some (msg, _) =>
        match msg.quoteFn text at_ with
        | WxCall.raises m => ExecOutcome.execErr m
        | WxCall.returns resp =>
            if !truthy resp then ExecOutcome.execErr (pyStr (resp.get "message"))
            else ExecOutcome.ok (Json.obj [("result", Json.bool true)])

/-- `_handle_forward`. -/
def handle_forward (cache : MsgCache) (params : Json) : ExecOutcome :=
  let ident := pyOr (params.get "id") (params.get "hash")
  let targets := pyOr (params.get "targets") (params.get "who")
  if !truthy ident || !truthy targets then ExecOutcome.valueErr "缺少 id/hash 或 targets"
  else
    match find_msg cache ident with
    | none => ExecOutcome.execErr "未找到目标消息"
    | some (msg, _) =>
        match msg.forwardFn targets with
        | WxCall.raises m => ExecOutcome.execErr m
        | WxCall.returns resp =>
            if !truthy resp then ExecOutcome.execErr (pyStr (resp.get "message"))
            else ExecOutcome.ok (Json.obj [("result", Json.bool true)])

/-- `_run_with_timeout(func, timeout_ms)`, with the handler's behaviour given
as its (model) running time in milliseconds plus its outcome. No budget
(falsy or `<= 0` `timeoutMs`) passes the outcome through; a positive numeric
budget smaller than the running time yields `TimeoutError` and discards the
outcome; Python booleans are ints (`True` behaves as a 1ms budget); any other
truthy `timeoutMs` raises a `TypeError` at the `timeout_ms <= 0` comparison,
before `func` is consulted. -/
def run_with_timeout (timeoutMs : Json) (duration : Nat) (outcome : ExecOutcome) :
    ExecOutcome :=
  if !truthy timeoutMs then outcome
  else
    match timeoutMs with
    | Json.num n =>
        if n ≤ 0 then outcome
        else if (duration : Rat) > n then ExecOutcome.timeoutErr else outcome
    | Json.bool _ =>
        if (duration : Rat) > 1 then ExecOutcome.timeoutErr else outcome
    | _ => ExecOutcome.execErr "TypeError: timeoutMs not comparable with int"

/-- The `_exec` closure of `CommandHandler.handle`: the if/elif dispatch over
the nine recognized actions; anything else raises
`ValueError(f"未知指令: {action}")`. -/
def exec_action (wx : WxOracle) (cache : MsgCache) (action params : Json) :
    ExecOutcome :=
  if action.isLit "send_text" then handle_send_text wx params
  else if action.isLit "send_files" then handle_send_files wx params
  else if action.isLit "chat_with" then handle_chat_with wx params
  else if action.isLit "add_listener" then handle_add_listener wx params
  else if action.isLit "remove_listener" then handle_remove_listener wx params
  else if action.isLit "start_listening" then handle_start_listening wx
  else if action.isLit "stop_listening" then handle_stop_listening wx
  else if action.isLit "quote" then handle_quote cache params
  else if action.isLit "forward" then handle_forward cache params
  else ExecOutcome.valueErr ("未知指令: " ++ pyStr action)

/-- The recognized action tags, in dispatch order. -/
def knownActions : List String :=
  ["send_text", "send_files", "chat_with", "add_listener", "remove_listener",
   "start_listening", "stop_listening", "quote", "forward"]

/-- Whether `action` matches one of the nine recognized tags. -/
def isKnownAction (action : Json) : Bool :=
  knownActions.any (fun s => action.isLit s)

/-- An `error` object passed to `send_command_result`: `{code, message}`. -/
structure ErrObj where
  code : String
  message : String

/-- One invocation of the `send_command_result` callback: the arguments the
dispatcher passes to it (`commandId`, `status`, `result`, `error`,
`trace_id`). -/
structure ResultCall where
  commandId : Json
  status : String
  result : Json
  error : Option ErrObj
  traceId : Json

/-- `CommandHandler._send_ok` (note the `result or {}` defaulting). -/
def send_ok (traceId commandId : Json) (result : Json) : ResultCall :=
  ⟨commandId, "success", pyOr result (Json.obj []), none, traceId⟩

/-- `CommandHandler._send_failed`. -/
def send_failed (traceId commandId : Json) (code message : String) : ResultCall :=
  ⟨commandId, "failed", Json.obj [], some ⟨code, message⟩, traceId⟩

/-- `CommandHandler._send_timeout`. -/
def send_timeout (traceId commandId : Json) : ResultCall :=
  ⟨commandId, "timeout", Json.obj [], some ⟨"RPA_TIMEOUT", "timeout"⟩, traceId⟩

/-- `CommandHandler._send_rejected`. -/
def send_rejected (traceId commandId : Json) (message : String) : ResultCall :=
  ⟨commandId, "rejected", Json.obj [], some ⟨"INVALID_PARAMS", message⟩, traceId⟩

/-- What one `CommandHandler.handle(envelope)` call does: the emitted
`command_result` calls, and whether the execution path (`_run_with_timeout`
around `_exec`) was reached at all. -/
structure HandleOut where
  results : List ResultCall
  execPathReached : Bool

/-- `trace_id = envelope.get("traceId") or ""`. -/
def envTraceId (envelope : Json) : Json := pyOr (envelope.get "traceId") (Json.str "")

/-- `payload = envelope.get("payload") or {}`. -/
def envPayload (envelope : Json) : Json := pyOr (envelope.get "payload") (Json.obj [])

/-- `command_id = payload.get("commandId") or ""`. -/
def envCommandId (envelope : Json) : Json :=
  pyOr ((envPayload envelope).get "commandId") (Json.str "")

/-- `action = payload.get("action") or ""`. -/
def envAction (envelope : Json) : Json :=
  pyOr ((envPayload envelope).get "action") (Json.str "")

/-- `params = payload.get("params") or {}`. -/
def envParams (envelope : Json) : Json :=
  pyOr ((envPayload envelope).get "params") (Json.obj [])

/-- `timeout_ms = payload.get("timeoutMs")` (no defaulting). -/
def envTimeoutMs (envelope : Json) : Json := (envPayload envelope).get "timeoutMs"

/-- `CommandHandler.handle`: validate the envelope, then run the dispatched
action under the time budget and map the outcome (result / TimeoutError /
ValueError / other exception) to exactly one `command_result`. `duration` is
the model running time of `_exec` in milliseconds. -/
def handle (wx : WxOracle) (cache : MsgCache) (envelope : Json) (duration : Nat) :
    HandleOut :=
  if !((envelope.get "type").isLit "command") then ⟨[], false⟩
  else
    let traceId := envTraceId envelope
    let commandId := envCommandId envelope
    let action := envAction envelope
    let params := envParams envelope
    let timeoutMs := envTimeoutMs envelope
    if !truthy commandId || !truthy action then
      ⟨[send_rejected traceId (pyOr commandId (Json.str "")) "缺少 commandId 或 action"], false⟩
    else
      match run_with_timeout timeoutMs duration (exec_action wx cache action params) with
      | ExecOutcome.ok r => ⟨[send_ok traceId commandId r], true⟩
      | ExecOutcome.timeoutErr => ⟨[send_timeout traceId commandId], true⟩
      | ExecOutcome.valueErr m => ⟨[send_rejected traceId commandId m], true⟩
      | ExecOutcome.execErr m => ⟨[send_failed traceId commandId "RPA_EXEC_ERROR" m], true⟩

/-- An outbound wire envelope as built by the `WsClient.send_*` methods. -/
structure Envelope where
  type : String
  traceId : Json
  deviceId : String
  timestamp : Int
  payload : Json

/-- `WsClient.send_ack`: `_tid = trace_id or str(uuid.uuid4())`; `freshTid`
stands for the uuid generated when no truthy trace id was supplied. -/
def build_ack (deviceId freshTid : String) (timestamp : Int) (forType : String)
    (forId traceId : Json) : Envelope :=
  { type := "ack"
    traceId := pyOr traceId (Json.str freshTid)
    deviceId := deviceId
    timestamp := timestamp
    payload := Json.obj [("forType", Json.str forType), ("forId", forId)] }

/-- The `error` field of a command_result payload (`None` when absent). -/
def errJson : Option ErrObj → Json
  | none => Json.null
  | some e => Json.obj [("code", Json.str e.code), ("message", Json.str e.message)]

/-- `WsClient.send_command_result`: the outbound envelope built from one
`ResultCall` (again with `trace_id or uuid` and `result or {}`). -/
def build_command_result (deviceId freshTid : String) (timestamp : Int)
    (c : ResultCall) : Envelope :=
  { type := "command_result"
    traceId := pyOr c.traceId (Json.str freshTid)
    deviceId := deviceId
    timestamp := timestamp
    payload := Json.obj
      [("commandId", c.commandId), ("status", Json.str c.status),
       ("result", pyOr c.result (Json.obj [])), ("error", errJson c.error)] }

/-- An observable step of `WsClient._on_message`: sending an ack (with the
`for_type`, `for_id` and `trace_id` arguments passed to `send_ack`), or
invoking the registered `on_command` callback. -/
inductive WsAction where
  | ack : String → Json → Json → WsAction
  | dispatch : Json → WsAction

/-- `WsClient._on_message` on an already-decoded value (a `json.loads`
failure drops the message upstream): for a dict of type `command`, send an
ack first — but only when `payload.commandId` is truthy — then invoke the
callback; every other decoded value goes straight to the callback. `hasCb`
is `callable(self.on_command)`. -/
def on_message (hasCb : Bool) (data : Json) : List WsAction :=
  if data.isObj && (data.get "type").isLit "command" then
    (let payload := pyOr (data.get "payload") (Json.obj [])
     let commandId := payload.get "commandId"
     if truthy commandId then [WsAction.ack "command" commandId (data.get "traceId")]
     else [])
    ++ (if hasCb then [WsAction.dispatch data] else [])
  else if hasCb then [WsAction.dispatch data] else []

/-- State of the sender worker: the pending outbound queue (head = next to
send) and the log of successfully transmitted items. -/
structure SenderState where
  queue : List String
  sent : List String
  deriving DecidableEq

/-- One iteration of `WsClient._sender_loop` while `_running` is set:
dequeue from the head (an empty queue just times out and loops); transmit
when connected; when not connected, or when `send` raises (`sendRaises`),
sleep briefly and re-enqueue the same item at the tail. -/
def sender_step (connected sendRaises : Bool) (s : SenderState) : SenderState :=
  match s.queue with
  | [] => s
  | t :: rest =>
      if connected then
        if sendRaises then ⟨rest ++ [t], s.sent⟩
        else ⟨rest, s.sent ++ [t]⟩
      else ⟨rest ++ [t], s.sent⟩

/-- Iterated sender-loop steps under an arbitrary connectivity/failure
schedule (one `(connected, sendRaises)` pair per iteration). -/
def sender_run (sched : List (Bool × Bool)) (s : SenderState) : SenderState :=
  sched.foldl (fun st cf => sender_step cf.1 cf.2 st) s

/-- The execution completes inside the time budget: no truthy `timeoutMs`, a
non-positive numeric budget, or a numeric budget the running time does not
exceed (exactly the cases in which `run_with_timeout` hands back the
handler's own outcome). -/
def passes_budget (timeoutMs : Json) (duration : Nat) : Bool :=
  !truthy timeoutMs ||
    (match timeoutMs with
     | Json.num n => decide (n ≤ 0) || decide ((duration : Rat) ≤ n)
     | _ => false)

/-- Concrete automation oracle for evaluating the model on sample commands. -/
def wxTest : WxOracle where
  sendMsg := fun _ _ _ _ _ =>
    WxCall.returns (Json.obj [("ok", Json.bool true), ("message", Json.str "done")])
  sendFiles := fun _ _ _ =>
    WxCall.returns (Json.obj [("ok", Json.bool true), ("message", Json.str "done")])
  chatWith := fun _ _ _ _ => WxCall.returns Json.null
  addListenChat := fun _ => WxCall.returns (Json.bool true)
  removeListenChat := fun _ => WxCall.returns (Json.obj [("ok", Json.bool true)])
  hasListenerThread := true
  listenerThreadAlive := true
  startListening := WxCall.returns Json.null
  listenerStart := WxCall.returns Json.null
  stopListening := WxCall.returns Json.null

/-- Sample cached message carrying both a stable id and a content hash. -/
def msgA : Msg where
  id := Json.str "m1"
  hash := Json.str "h1"
  quoteFn := fun _ _ => WxCall.returns (Json.bool true)
  forwardFn := fun _ => WxCall.returns (Json.bool true)

/-- Second sample message reusing `msgA`'s id key (for last-write-wins). -/
def msgB : Msg where
  id := Json.str "m1"
  hash := Json.str "h2"
  quoteFn := fun _ _ => WxCall.returns (Json.bool false)
  forwardFn := fun _ => WxCall.returns (Json.bool false)

/-- Sample message with neither a truthy id nor a truthy hash. -/
def msgNone : Msg where
  id := Json.null
  hash := Json.str ""
  quoteFn := fun _ _ => WxCall.raises "unused"
  forwardFn := fun _ => WxCall.raises "unused"

/-- Sample chat contexts. -/
def chatA : Chat := ⟨1⟩

/-- Second sample chat context. -/
def chatB : Chat := ⟨2⟩

/-- Inbound command envelope whose payload has no `commandId` (C1/C2). -/
def envNoCid : Json :=
  Json.obj [("type", Json.str "command"), ("traceId", Json.str "trace-1"),
            ("payload", Json.obj [("action", Json.str "send_text")])]

/-- Inbound command envelope with a 50ms budget (C3). -/
def envSlow : Json :=
  Json.obj [("type", Json.str "command"), ("traceId", Json.str "trace-3"),
            ("payload", Json.obj
              [("commandId", Json.str "cmd-3"), ("action", Json.str "send_text"),
               ("params", Json.obj [("text", Json.str "hi")]),
               ("timeoutMs", Json.num 50)])]

/-- Inbound command envelope with an unrecognized action (C4). -/
def envUnknown : Json :=
  Json.obj [("type", Json.str "command"), ("traceId", Json.str "trace-4"),
            ("payload", Json.obj
              [("commandId", Json.str "cmd-4"), ("action", Json.str "frobnicate")])]

/-- Inbound quote command targeting cached message id `m1` (C5). -/
def envQuote : Json :=
  Json.obj [("type", Json.str "command"), ("traceId", Json.str "trace-5"),
            ("payload", Json.obj
              [("commandId", Json.str "cmd-5"), ("action", Json.str "quote"),
               ("params", Json.obj
                 [("id", Json.str "m1"), ("text", Json.str "reply")])])]

/-- Well-formed send_text command envelope (C1 amended / C7). -/
def envSendText : Json :=
  Json.obj [("type", Json.str "command"), ("traceId", Json.str "trace-7"),
            ("payload", Json.obj
              [("commandId", Json.str "cmd-7"), ("action", Json.str "send_text"),
               ("params", Json.obj [("text", Json.str "hello")])])]

/-- chat_with command envelope whose target is present (C9). -/
def envChatWith : Json :=
  Json.obj [("type", Json.str "command"), ("traceId", Json.str "trace-9"),
            ("payload", Json.obj
              [("commandId", Json.str "cmd-9"), ("action", Json.str "chat_with"),
               ("params", Json.obj [("to", Json.str "alice")])])]

/-! ## Helper lemmas -/

lemma run_with_timeout_of_passes (t : Json) (d : Nat) (o : ExecOutcome)
    (h : passes_budget t d = true) : run_with_timeout t d o = o := by
  unfold passes_budget at h
  unfold run_with_timeout
  by_cases ht : truthy t
  · simp only [ht, Bool.not_true, Bool.true_or, Bool.false_or] at *
    cases t with
    | num n =>
        simp only [Bool.or_eq_true, decide_eq_true_eq] at h
        rcases h with h | h
        · simp [h]
        · by_cases hle : n ≤ 0
          · simp [hle]
          · simp [hle, not_lt.mpr h]
    | bool b => cases b <;> simp_all [truthy]
    | null => simp_all [truthy]
    | str s => simp_all
    | arr xs => simp_all
    | obj fs => simp_all
  · simp [ht]

lemma handle_valid (wx : WxOracle) (cache : MsgCache) (env : Json) (duration : Nat)
    (htype : (env.get "type").isLit "command" = true)
    (hcid : truthy (envCommandId env) = true)
    (hact : truthy (envAction env) = true) :
    handle wx cache env duration =
      match run_with_timeout (envTimeoutMs env) duration
              (exec_action wx cache (envAction env) (envParams env)) with
      | ExecOutcome.ok r => ⟨[send_ok (envTraceId env) (envCommandId env) r], true⟩
      | ExecOutcome.timeoutErr => ⟨[send_timeout (envTraceId env) (envCommandId env)], true⟩
      | ExecOutcome.valueErr m => ⟨[send_rejected (envTraceId env) (envCommandId env) m], true⟩
      | ExecOutcome.execErr m =>
          ⟨[send_failed (envTraceId env) (envCommandId env) "RPA_EXEC_ERROR" m], true⟩ := by
  unfold handle
  simp [htype, hcid, hact]

lemma handle_exec (wx : WxOracle) (cache : MsgCache) (env : Json) (duration : Nat)
    (htype : (env.get "type").isLit "command" = true)
    (hcid : truthy (envCommandId env) = true)
    (hact : truthy (envAction env) = true)
    (hbudget : passes_budget (envTimeoutMs env) duration = true) :
    handle wx cache env duration =
      match exec_action wx cache (envAction env) (envParams env) with
      | ExecOutcome.ok r => ⟨[send_ok (envTraceId env) (envCommandId env) r], true⟩
      | ExecOutcome.timeoutErr => ⟨[send_timeout (envTraceId env) (envCommandId env)], true⟩
      | ExecOutcome.valueErr m => ⟨[send_rejected (envTraceId env) (envCommandId env) m], true⟩
      | ExecOutcome.execErr m =>
          ⟨[send_failed (envTraceId env) (envCommandId env) "RPA_EXEC_ERROR" m], true⟩ := by
  rw [handle_valid wx cache env duration htype hcid hact,
      run_with_timeout_of_passes _ _ _ hbudget]

lemma dictGet_set_self {α : Type} (d : List (String × α)) (k : String) (v : α) :
    dictGet (dictSet d k v) k = some v := by
  induction d with
  | nil => simp [dictSet, dictGet]
  | cons p rest ih =>
      obtain ⟨k', v'⟩ := p
      by_cases h : k' = k <;> simp [dictSet, dictGet, h, ih]

lemma dictGet_set_ne {α : Type} (d : List (String × α)) (k k2 : String) (v : α)
    (h : k2 ≠ k) : dictGet (dictSet d k v) k2 = dictGet d k2 := by
  have h' : k ≠ k2 := Ne.symm h
  induction d with
  | nil => simp [dictSet, dictGet, h']
  | cons p rest ih =>
      obtain ⟨k', v'⟩ := p
      by_cases h1 : k' = k
      · subst h1
        simp [dictSet, dictGet, h']
      · by_cases h2 : k' = k2 <;> simp [dictSet, dictGet, h1, h2, ih, h]

lemma sender_step_perm (c f : Bool) (s : SenderState) :
    ((sender_step c f s).queue ++ (sender_step c f s).sent).Perm
      (s.queue ++ s.sent) := by
  obtain ⟨q, sent⟩ := s
  cases q with
  | nil => simp [sender_step]
  | cons t rest =>
      have hre : (rest ++ [t] ++ sent).Perm (t :: rest ++ sent) := by
        have h1 : rest ++ [t] ++ sent = rest ++ (t :: sent) := by simp
        rw [h1]
        exact List.perm_middle
      have htr : (rest ++ (sent ++ [t])).Perm (t :: rest ++ sent) := by
        have h1 : rest ++ (sent ++ [t]) = (rest ++ sent) ++ [t] := by simp
        rw [h1]
        simpa using List.perm_append_singleton t (rest ++ sent)
      by_cases hc : c
      · by_cases hf : f
        · have h2 : sender_step c f ⟨t :: rest, sent⟩ = ⟨rest ++ [t], sent⟩ := by
            simp [sender_step, hc, hf]
          rw [h2]
          exact hre
        · have h2 : sender_step c f ⟨t :: rest, sent⟩ = ⟨rest, sent ++ [t]⟩ := by
            simp [sender_step, hc, hf]
          rw [h2]
          exact htr
      · have h2 : sender_step c f ⟨t :: rest, sent⟩ = ⟨rest ++ [t], sent⟩ := by
          simp [sender_step, hc]
        rw [h2]
        exact hre

lemma sender_run_perm (sched : List (Bool × Bool)) (s : SenderState) :
    ((sender_run sched s).queue ++ (sender_run sched s).sent).Perm
      (s.queue ++ s.sent) := by
  induction sched generalizing s with
  | nil => simp [sender_run]
  | cons cf rest ih =>
      have hstep := sender_step_perm cf.1 cf.2 s
      have : sender_run (cf :: rest) s = sender_run rest (sender_step cf.1 cf.2 s) := by
        simp [sender_run]
      rw [this]
      exact (ih (sender_step cf.1 cf.2 s)).trans hstep

/-! ## Claim theorems -/

/-- C2: for every command envelope in which `commandId` or `action` is
missing (falsy), `handle` emits exactly one command_result, its status is
`rejected` with error code `INVALID_PARAMS`, and the execution path (and so
every action handler) is never reached. -/
theorem handle_missing_fields_rejected (wx : WxOracle) (cache : MsgCache)
    (env : Json) (duration : Nat)
    (htype : (env.get "type").isLit "command" = true)
    (hmiss : truthy (envCommandId env) = false ∨ truthy (envAction env) = false) :
    handle wx cache env duration =
      ⟨[send_rejected (envTraceId env) (pyOr (envCommandId env) (Json.str ""))
          "缺少 commandId 或 action"], false⟩
    ∧ (handle wx cache env duration).results.map ResultCall.status = ["rejected"]
    ∧ (handle wx cache env duration).results.map (fun r => r.error.map ErrObj.code)
        = [some "INVALID_PARAMS"]
    ∧ (handle wx cache env duration).execPathReached = false := by
  have he : handle wx cache env duration =
      ⟨[send_rejected (envTraceId env) (pyOr (envCommandId env) (Json.str ""))
          "缺少 commandId 或 action"], false⟩ := by
    unfold handle
    rcases hmiss with h | h <;> simp [htype, h]
  refine ⟨he, ?_, ?_, ?_⟩ <;> rw [he] <;> simp [send_rejected]

/-- C2 witness: a concrete command envelope with no `commandId` is rejected
with `INVALID_PARAMS` and reaches no handler. -/
theorem handle_missing_fields_rejected_witness :
    handle wxTest [] envNoCid 0 =
      ⟨[send_rejected (envTraceId envNoCid) (pyOr (envCommandId envNoCid) (Json.str ""))
          "缺少 commandId 或 action"], false⟩
    ∧ (handle wxTest [] envNoCid 0).results.map ResultCall.status = ["rejected"]
    ∧ (handle wxTest [] envNoCid 0).results.map (fun r => r.error.map ErrObj.code)
        = [some "INVALID_PARAMS"]
    ∧ (handle wxTest [] envNoCid 0).execPathReached = false :=
  handle_missing_fields_rejected wxTest [] envNoCid 0 rfl (Or.inl rfl)

/-- C6: registering a message that carries both a truthy id and a truthy hash
makes it retrievable by either key, and re-registering another message under
the same id key overwrites the earlier entry (last-write-wins). -/
theorem message_cache_dual_key_lww (cache : MsgCache) (msg msg2 : Msg)
    (chat chat2 : Chat)
    (hid : truthy msg.id = true) (hhash : truthy msg.hash = true)
    (hid2 : truthy msg2.id = true) (hsame : pyStr msg2.id = pyStr msg.id) :
    find_msg (register_message cache msg chat) msg.id = some (msg, chat)
    ∧ find_msg (register_message cache msg chat) msg.hash = some (msg, chat)
    ∧ find_msg (register_message (register_message cache msg chat) msg2 chat2) msg.id
        = some (msg2, chat2) := by
  refine ⟨?_, ?_, ?_⟩
  · unfold register_message find_msg
    simp only [hid, hhash, if_true]
    by_cases h : pyStr msg.hash = pyStr msg.id
    · rw [h, dictGet_set_self]
    · rw [dictGet_set_ne _ _ _ _ (fun he => h he.symm), dictGet_set_self]
  · unfold register_message find_msg
    simp only [hid, hhash, if_true]
    exact dictGet_set_self _ _ _
  · unfold find_msg
    conv_lhs =>
      rw [show register_message (register_message cache msg chat) msg2 chat2 =
            (if truthy msg2.hash then
              dictSet (dictSet (register_message cache msg chat) (pyStr msg2.id)
                (msg2, chat2)) (pyStr msg2.hash) (msg2, chat2)
             else dictSet (register_message cache msg chat) (pyStr msg2.id)
                (msg2, chat2)) by
        unfold register_message
        simp [hid2]]
    rw [hsame]
    by_cases hh : truthy msg2.hash
    · simp only [hh, if_true]
      by_cases heq : pyStr msg2.hash = pyStr msg.id
      · rw [heq, dictGet_set_self]
      · rw [dictGet_set_ne _ _ _ _ (fun he => heq he.symm), dictGet_set_self]
    · simp only [hh, Bool.false_eq_true, if_false]
      rw [dictGet_set_self]

/-- C6 witness: `msgA` (id `m1`, hash `h1`) is retrievable by both keys after
registration, and registering `msgB` (same id `m1`) overwrites the entry. -/
theorem message_cache_dual_key_lww_witness :
    find_msg (register_message [] msgA chatA) msgA.id = some (msgA, chatA)
    ∧ find_msg (register_message [] msgA chatA) msgA.hash = some (msgA, chatA)
    ∧ find_msg (register_message (register_message [] msgA chatA) msgB chatB) msgA.id
        = some (msgB, chatB) :=
  message_cache_dual_key_lww [] msgA msgB chatA chatB rfl rfl rfl rfl

/-- C8: the sender loop preserves outbound items. Over any schedule of
iterations, the multiset `queue ++ sent` is preserved (no enqueued item is
ever discarded), and each single iteration on a non-empty queue dequeues the
head and either transmits it (connected and `send` does not raise) or
re-enqueues that same item at the tail of the queue. -/
theorem sender_loop_preserves_items :
    (∀ (sched : List (Bool × Bool)) (s : SenderState),
        ((sender_run sched s).queue ++ (sender_run sched s).sent).Perm
          (s.queue ++ s.sent))
    ∧ (∀ (c f : Bool) (t : String) (rest sent : List String),
        sender_step c f ⟨t :: rest, sent⟩ =
          if c && !f then ⟨rest, sent ++ [t]⟩ else ⟨rest ++ [t], sent⟩) := by
  constructor
  · exact sender_run_perm
  · intro c f t rest sent
    cases c <;> cases f <;> simp [sender_step]

/-- C10: registering a message with neither a truthy `id` attribute nor a
truthy `hash` attribute leaves the message cache unchanged (a silent no-op;
the model function is total, so no error is raised). -/
theorem register_message_noop (cache : MsgCache) (msg : Msg) (chat : Chat)
    (hid : truthy msg.id = false) (hhash : truthy msg.hash = false) :
    register_message cache msg chat = cache := by
  simp [register_message, hid, hhash]

/-- C10 witness: registering `msgNone` (id `None`, hash `""`) over a
non-empty cache leaves it exactly as it was. -/
theorem register_message_noop_witness :
    register_message (register_message [] msgA chatA) msgNone chatB
      = register_message [] msgA chatA :=
  register_message_noop (register_message [] msgA chatA) msgNone chatB rfl rfl

lemma exec_action_unknown (wx : WxOracle) (cache : MsgCache) (action params : Json)
    (h : isKnownAction action = false) :
    exec_action wx cache action params
      = ExecOutcome.valueErr ("未知指令: " ++ pyStr action) := by
  unfold isKnownAction knownActions at h
  simp only [List.any_cons, List.any_nil, Bool.or_eq_false_iff] at h
  obtain ⟨h1, h2, h3, h4, h5, h6, h7, h8, h9, -⟩ := h
  unfold exec_action
  simp [h1, h2, h3, h4, h5, h6, h7, h8, h9]

/-- C3: a command whose `timeoutMs` is a positive number and whose handler
runs longer than that budget yields exactly one command_result with status
`timeout` and error code `RPA_TIMEOUT`; the handler's own outcome (the
`exec_action` value, success or failure, for any oracle and cache) is
discarded and no further result is emitted. -/
theorem handle_timeout_discards (wx : WxOracle) (cache : MsgCache) (env : Json)
    (duration : Nat) (n : Rat)
    (htype : (env.get "type").isLit "command" = true)
    (hcid : truthy (envCommandId env) = true)
    (hact : truthy (envAction env) = true)
    (htm : envTimeoutMs env = Json.num n)
    (hpos : 0 < n)
    (hslow : n < (duration : Rat)) :
    handle wx cache env duration =
      ⟨[send_timeout (envTraceId env) (envCommandId env)], true⟩
    ∧ (handle wx cache env duration).results.map
        (fun r => (r.status, r.error.map ErrObj.code))
      = [("timeout", some "RPA_TIMEOUT")] := by
  have hrun : run_with_timeout (envTimeoutMs env) duration
      (exec_action wx cache (envAction env) (envParams env)) = ExecOutcome.timeoutErr := by
    rw [htm]
    unfold run_with_timeout
    have hne : n ≠ 0 := ne_of_gt hpos
    simp [truthy, hne, not_le.mpr hpos, hslow]
  have he := handle_valid wx cache env duration htype hcid hact
  rw [hrun] at he
  exact ⟨he, by rw [he]; simp [send_timeout]⟩

/-- C3 witness: `envSlow` (budget 50ms) with a 100ms handler yields exactly
the `timeout`/`RPA_TIMEOUT` result. -/
theorem handle_timeout_discards_witness :
    handle wxTest [] envSlow 100 =
      ⟨[send_timeout (envTraceId envSlow) (envCommandId envSlow)], true⟩
    ∧ (handle wxTest [] envSlow 100).results.map
        (fun r => (r.status, r.error.map ErrObj.code))
      = [("timeout", some "RPA_TIMEOUT")] :=
  handle_timeout_discards wxTest [] envSlow 100 50 rfl rfl rfl rfl
    (by norm_num) (by norm_num)

/-- C4: a command with a truthy `commandId` and a truthy `action` that is not
one of the nine recognized actions, executed within its budget, yields
exactly one command_result with status `rejected` (the unknown action's
`ValueError`), and none of its results ever has status `failed`. -/
theorem handle_unknown_action_rejected (wx : WxOracle) (cache : MsgCache)
    (env : Json) (duration : Nat)
    (htype : (env.get "type").isLit "command" = true)
    (hcid : truthy (envCommandId env) = true)
    (hact : truthy (envAction env) = true)
    (hunk : isKnownAction (envAction env) = false)
    (hbudget : passes_budget (envTimeoutMs env) duration = true) :
    handle wx cache env duration =
      ⟨[send_rejected (envTraceId env) (envCommandId env)
          ("未知指令: " ++ pyStr (envAction env))], true⟩
    ∧ (handle wx cache env duration).results.map ResultCall.status = ["rejected"]
    ∧ ∀ r ∈ (handle wx cache env duration).results, r.status ≠ "failed" := by
  have he := handle_exec wx cache env duration htype hcid hact hbudget
  rw [exec_action_unknown wx cache _ _ hunk] at he
  refine ⟨he, by rw [he]; simp [send_rejected], ?_⟩
  rw [he]
  intro r hr
  simp only [List.mem_singleton] at hr
  subst hr
  simp [send_rejected]

/-- C4 witness: the unrecognized action `frobnicate` is rejected, not
failed. -/
theorem handle_unknown_action_rejected_witness :
    handle wxTest [] envUnknown 0 =
      ⟨[send_rejected (envTraceId envUnknown) (envCommandId envUnknown)
          ("未知指令: " ++ pyStr (envAction envUnknown))], true⟩
    ∧ (handle wxTest [] envUnknown 0).results.map ResultCall.status = ["rejected"]
    ∧ ∀ r ∈ (handle wxTest [] envUnknown 0).results, r.status ≠ "failed" :=
  handle_unknown_action_rejected wxTest [] envUnknown 0 rfl rfl rfl rfl rfl

/-- C7: every command envelope carrying a truthy `traceId` that `handle`
processes produces exactly one command_result envelope, and that envelope's
`traceId` is the inbound one (propagated through `trace_id or uuid`, not
freshly generated). -/
theorem command_result_propagates_trace (wx : WxOracle) (cache : MsgCache)
    (env : Json) (duration : Nat) (deviceId freshTid : String) (ts : Int)
    (htype : (env.get "type").isLit "command" = true)
    (htid : truthy (env.get "traceId") = true) :
    (handle wx cache env duration).results.map
        (fun c => (build_command_result deviceId freshTid ts c).traceId)
      = [env.get "traceId"] := by
  have htr : envTraceId env = env.get "traceId" := by simp [envTraceId, pyOr, htid]
  unfold handle
  simp only [htype, Bool.not_true, Bool.false_eq_true, if_false, ite_false]
  by_cases hv : (!truthy (envCommandId env) || !truthy (envAction env)) = true
  · simp [hv, send_rejected, build_command_result, htr, pyOr, htid]
  · simp only [Bool.not_eq_true] at hv
    rw [if_neg (by simp [hv])]
    cases hout : run_with_timeout (envTimeoutMs env) duration
        (exec_action wx cache (envAction env) (envParams env)) <;>
      simp [send_ok, send_timeout, send_rejected, send_failed,
            build_command_result, htr, pyOr, htid]

/-- C7 witness: the result for `envSendText` carries the inbound trace id. -/
theorem command_result_propagates_trace_witness :
    (handle wxTest [] envSendText 0).results.map
        (fun c => (build_command_result "dev-1" "fresh-uuid" 0 c).traceId)
      = [envSendText.get "traceId"] :=
  command_result_propagates_trace wxTest [] envSendText 0 "dev-1" "fresh-uuid" 0
    rfl rfl

lemma exec_action_chat_with (wx : WxOracle) (cache : MsgCache) (params : Json) :
    exec_action wx cache (Json.str "chat_with") params = handle_chat_with wx params := rfl

/-- C9: for a chat_with command whose `to`/`who` target is present, a `None`
return from the underlying `ChatWith` call is treated as success (`{result:
true}`), and only a present-but-falsy return value produces an execution
failure (`failed`, `RPA_EXEC_ERROR`). -/
theorem chat_with_none_is_success (wx : WxOracle) (cache : MsgCache) (env : Json)
    (duration : Nat)
    (htype : (env.get "type").isLit "command" = true)
    (hcid : truthy (envCommandId env) = true)
    (hact : envAction env = Json.str "chat_with")
    (hwho : truthy (pyOr ((envParams env).get "to") ((envParams env).get "who")) = true)
    (hbudget : passes_budget (envTimeoutMs env) duration = true) :
    (wx.chatWith (pyOr ((envParams env).get "to") ((envParams env).get "who"))
        ((envParams env).getD "exact" (Json.bool true))
        ((envParams env).getD "force" (Json.bool false))
        ((envParams env).getD "force_wait" (Json.num forceWaitDefault)) = WxCall.returns Json.null →
      handle wx cache env duration =
        ⟨[send_ok (envTraceId env) (envCommandId env)
            (Json.obj [("result", Json.bool true)])], true⟩)
    ∧ (∀ v, wx.chatWith (pyOr ((envParams env).get "to") ((envParams env).get "who"))
          ((envParams env).getD "exact" (Json.bool true))
          ((envParams env).getD "force" (Json.bool false))
          ((envParams env).getD "force_wait" (Json.num forceWaitDefault)) = WxCall.returns v →
        v.isNull = false → truthy v = false →
        handle wx cache env duration =
          ⟨[send_failed (envTraceId env) (envCommandId env) "RPA_EXEC_ERROR"
              "切换会话失败"], true⟩) := by
  have hacttruthy : truthy (envAction env) = true := by rw [hact]; rfl
  have he := handle_exec wx cache env duration htype hcid hacttruthy hbudget
  rw [hact, exec_action_chat_with] at he
  constructor
  · intro hchat
    rw [he]
    have hcw : handle_chat_with wx (envParams env)
        = ExecOutcome.ok (Json.obj [("result", Json.bool true)]) := by
      unfold handle_chat_with
      simp [hwho, hchat, Json.isNull]
    rw [hcw]
  · intro v hchat hnull hfalsy
    rw [he]
    have hcw : handle_chat_with wx (envParams env)
        = ExecOutcome.execErr "切换会话失败" := by
      unfold handle_chat_with
      simp [hwho, hchat, hnull, hfalsy]
    rw [hcw]

/-- C9 witness: `wxTest.chatWith` returns `None` and the chat_with command
`envChatWith` succeeds with `{result: true}`. -/
theorem chat_with_none_is_success_witness :
    handle wxTest [] envChatWith 0 =
      ⟨[send_ok (envTraceId envChatWith) (envCommandId envChatWith)
          (Json.obj [("result", Json.bool true)])], true⟩ :=
  (chat_with_none_is_success wxTest [] envChatWith 0 rfl rfl rfl rfl rfl).1 rfl

/-- C1 (amended): for every inbound dict of type `command` whose payload
carries a truthy `commandId`, `_on_message` sends exactly one ack — built
from the inbound `traceId` and the command's `commandId` — and then invokes the
registered callback; the ack envelope references the `commandId` in its
`forId` field and reuses the inbound `traceId` whenever that is truthy. The
ack does not depend on what the callback later does. -/
theorem ack_before_dispatch (data : Json) (deviceId freshTid : String) (ts : Int)
    (hobj : data.isObj = true)
    (htype : (data.get "type").isLit "command" = true)
    (hcid : truthy ((pyOr (data.get "payload") (Json.obj [])).get "commandId") = true) :
    on_message true data =
      [WsAction.ack "command" ((pyOr (data.get "payload") (Json.obj [])).get "commandId")
         (data.get "traceId"),
       WsAction.dispatch data]
    ∧ (build_ack deviceId freshTid ts "command"
         ((pyOr (data.get "payload") (Json.obj [])).get "commandId")
         (data.get "traceId")).payload.get "forId"
        = (pyOr (data.get "payload") (Json.obj [])).get "commandId"
    ∧ (truthy (data.get "traceId") = true →
        (build_ack deviceId freshTid ts "command"
           ((pyOr (data.get "payload") (Json.obj [])).get "commandId")
           (data.get "traceId")).traceId = data.get "traceId") := by
  refine ⟨?_, ?_, ?_⟩
  · unfold on_message
    simp [hobj, htype, hcid]
  · simp [build_ack, Json.get, Json.getD]
  · intro h
    simp [build_ack, pyOr, h]

/-- C1 amended witness: on `envSendText` (truthy `commandId` and `traceId`)
the ack for `cmd-7` precedes the dispatch and reuses trace id `trace-7`. -/
theorem ack_before_dispatch_witness :
    on_message true envSendText =
      [WsAction.ack "command"
         ((pyOr (envSendText.get "payload") (Json.obj [])).get "commandId")
         (envSendText.get "traceId"),
       WsAction.dispatch envSendText]
    ∧ (build_ack "dev-1" "fresh-uuid" 0 "command"
         ((pyOr (envSendText.get "payload") (Json.obj [])).get "commandId")
         (envSendText.get "traceId")).payload.get "forId"
        = (pyOr (envSendText.get "payload") (Json.obj [])).get "commandId"
    ∧ (truthy (envSendText.get "traceId") = true →
        (build_ack "dev-1" "fresh-uuid" 0 "command"
           ((pyOr (envSendText.get "payload") (Json.obj [])).get "commandId")
           (envSendText.get "traceId")).traceId = envSendText.get "traceId") :=
  ack_before_dispatch envSendText "dev-1" "fresh-uuid" 0 rfl rfl rfl

/-- C1 counterexample: `envNoCid` decodes to a command envelope (a dict with
type `command`), yet `_on_message` sends no ack at all — the callback is
invoked without any preceding acknowledgement, because the payload has no
truthy `commandId`. This refutes the claim that every inbound command
envelope triggers exactly one ack. -/
theorem ack_missing_commandId_counterexample :
    envNoCid.isObj = true
    ∧ (envNoCid.get "type").isLit "command" = true
    ∧ on_message true envNoCid = [WsAction.dispatch envNoCid]
    ∧ ∀ ft fi tid, WsAction.ack ft fi tid ∉ on_message true envNoCid := by
  refine ⟨rfl, rfl, rfl, ?_⟩
  intro ft fi tid h
  rw [show on_message true envNoCid = [WsAction.dispatch envNoCid] from rfl] at h
  simp at h

lemma exec_action_quote (wx : WxOracle) (cache : MsgCache) (params : Json) :
    exec_action wx cache (Json.str "quote") params = handle_quote cache params := rfl

lemma exec_action_forward (wx : WxOracle) (cache : MsgCache) (params : Json) :
    exec_action wx cache (Json.str "forward") params = handle_forward cache params := rfl

/-- C5: for a quote or forward command with its required params present,
an identifier absent from the message cache yields exactly one execution
failure (`failed`, `RPA_EXEC_ERROR`, "未找到目标消息"); a present identifier
delegates to the cached message's quote/forward capability and reflects its
outcome one-to-one (truthy response → `success {result: true}`; falsy
response → `failed` with the response's message; raised exception →
`failed` with that exception's message). -/
theorem quote_forward_cache_resolution (wx : WxOracle) (cache : MsgCache)
    (env : Json) (duration : Nat)
    (htype : (env.get "type").isLit "command" = true)
    (hcid : truthy (envCommandId env) = true)
    (hbudget : passes_budget (envTimeoutMs env) duration = true) :
    (envAction env = Json.str "quote" →
      truthy (pyOr ((envParams env).get "id") ((envParams env).get "hash")) = true →
      truthy ((envParams env).get "text") = true →
      (find_msg cache (pyOr ((envParams env).get "id") ((envParams env).get "hash"))
          = none →
        handle wx cache env duration =
          ⟨[send_failed (envTraceId env) (envCommandId env) "RPA_EXEC_ERROR"
              "未找到目标消息"], true⟩)
      ∧ (∀ msg chat resp,
          find_msg cache (pyOr ((envParams env).get "id") ((envParams env).get "hash"))
            = some (msg, chat) →
          msg.quoteFn ((envParams env).get "text") ((envParams env).get "at")
            = WxCall.returns resp →
          truthy resp = true →
          handle wx cache env duration =
            ⟨[send_ok (envTraceId env) (envCommandId env)
                (Json.obj [("result", Json.bool true)])], true⟩)
      ∧ (∀ msg chat resp,
          find_msg cache (pyOr ((envParams env).get "id") ((envParams env).get "hash"))
            = some (msg, chat) →
          msg.quoteFn ((envParams env).get "text") ((envParams env).get "at")
            = WxCall.returns resp →
          truthy resp = false →
          handle wx cache env duration =
            ⟨[send_failed (envTraceId env) (envCommandId env) "RPA_EXEC_ERROR"
                (pyStr (resp.get "message"))], true⟩)
      ∧ (∀ msg chat m,
          find_msg cache (pyOr ((envParams env).get "id") ((envParams env).get "hash"))
            = some (msg, chat) →
          msg.quoteFn ((envParams env).get "text") ((envParams env).get "at")
            = WxCall.raises m →
          handle wx cache env duration =
            ⟨[send_failed (envTraceId env) (envCommandId env) "RPA_EXEC_ERROR" m],
              true⟩))
    ∧ (envAction env = Json.str "forward" →
      truthy (pyOr ((envParams env).get "id") ((envParams env).get "hash")) = true →
      truthy (pyOr ((envParams env).get "targets") ((envParams env).get "who")) = true →
      (find_msg cache (pyOr ((envParams env).get "id") ((envParams env).get "hash"))
          = none →
        handle wx cache env duration =
          ⟨[send_failed (envTraceId env) (envCommandId env) "RPA_EXEC_ERROR"
              "未找到目标消息"], true⟩)
      ∧ (∀ msg chat resp,
          find_msg cache (pyOr ((envParams env).get "id") ((envParams env).get "hash"))
            = some (msg, chat) →
          msg.forwardFn (pyOr ((envParams env).get "targets") ((envParams env).get "who"))
            = WxCall.returns resp →
          truthy resp = true →
          handle wx cache env duration =
            ⟨[send_ok (envTraceId env) (envCommandId env)
                (Json.obj [("result", Json.bool true)])], true⟩)
      ∧ (∀ msg chat resp,
          find_msg cache (pyOr ((envParams env).get "id") ((envParams env).get "hash"))
            = some (msg, chat) →
          msg.forwardFn (pyOr ((envParams env).get "targets") ((envParams env).get "who"))
            = WxCall.returns resp →
          truthy resp = false →
          handle wx cache env duration =
            ⟨[send_failed (envTraceId env) (envCommandId env) "RPA_EXEC_ERROR"
                (pyStr (resp.get "message"))], true⟩)
      ∧ (∀ msg chat m,
          find_msg cache (pyOr ((envParams env).get "id") ((envParams env).get "hash"))
            = some (msg, chat) →
          msg.forwardFn (pyOr ((envParams env).get "targets") ((envParams env).get "who"))
            = WxCall.raises m →
          handle wx cache env duration =
            ⟨[send_failed (envTraceId env) (envCommandId env) "RPA_EXEC_ERROR" m],
              true⟩)) := by
  constructor
  · intro hact hident htext
    have hacttruthy : truthy (envAction env) = true := by rw [hact]; rfl
    have he := handle_exec wx cache env duration htype hcid hacttruthy hbudget
    rw [hact, exec_action_quote] at he
    refine ⟨?_, ?_, ?_, ?_⟩
    · intro hfind
      rw [he]
      have hq : handle_quote cache (envParams env)
          = ExecOutcome.execErr "未找到目标消息" := by
        unfold handle_quote
        simp [hident, htext, hfind]
      rw [hq]
    · intro msg chat resp hfind hqr hresp
      rw [he]
      have hq : handle_quote cache (envParams env)
          = ExecOutcome.ok (Json.obj [("result", Json.bool true)]) := by
        unfold handle_quote
        simp [hident, htext, hfind, hqr, hresp]
      rw [hq]
    · intro msg chat resp hfind hqr hresp
      rw [he]
      have hq : handle_quote cache (envParams env)
          = ExecOutcome.execErr (pyStr (resp.get "message")) := by
        unfold handle_quote
        simp [hident, htext, hfind, hqr, hresp]
      rw [hq]
    · intro msg chat m hfind hqr
      rw [he]
      have hq : handle_quote cache (envParams env) = ExecOutcome.execErr m := by
        unfold handle_quote
        simp [hident, htext, hfind, hqr]
      rw [hq]
  · intro hact hident htargets
    have hacttruthy : truthy (envAction env) = true := by rw [hact]; rfl
    have he := handle_exec wx cache env duration htype hcid hacttruthy hbudget
    rw [hact, exec_action_forward] at he
    refine ⟨?_, ?_, ?_, ?_⟩
    · intro hfind
      rw [he]
      have hq : handle_forward cache (envParams env)
          = ExecOutcome.execErr "未找到目标消息" := by
        unfold handle_forward
        simp [hident, htargets, hfind]
      rw [hq]
    · intro msg chat resp hfind hqr hresp
      rw [he]
      have hq : handle_forward cache (envParams env)
          = ExecOutcome.ok (Json.obj [("result", Json.bool true)]) := by
        unfold handle_forward
        simp [hident, htargets, hfind, hqr, hresp]
      rw [hq]
    · intro msg chat resp hfind hqr hresp
      rw [he]
      have hq : handle_forward cache (envParams env)
          = ExecOutcome.execErr (pyStr (resp.get "message")) := by
        unfold handle_forward
        simp [hident, htargets, hfind, hqr, hresp]
      rw [hq]
    · intro msg chat m hfind hqr
      rw [he]
      have hq : handle_forward cache (envParams env) = ExecOutcome.execErr m := by
        unfold handle_forward
        simp [hident, htargets, hfind, hqr]
      rw [hq]

/-- C5 witness: quoting cached message `m1` via `envQuote` delegates to
`msgA.quoteFn` (truthy response) and succeeds; the same command against an
empty cache yields the `RPA_EXEC_ERROR` execution failure. -/
theorem quote_forward_cache_resolution_witness :
    (handle wxTest (register_message [] msgA chatA) envQuote 0 =
      ⟨[send_ok (envTraceId envQuote) (envCommandId envQuote)
          (Json.obj [("result", Json.bool true)])], true⟩)
    ∧ (handle wxTest [] envQuote 0 =
      ⟨[send_failed (envTraceId envQuote) (envCommandId envQuote) "RPA_EXEC_ERROR"
          "未找到目标消息"], true⟩) :=
  ⟨((quote_forward_cache_resolution wxTest (register_message [] msgA chatA) envQuote 0
      rfl rfl rfl).1 rfl rfl rfl).2.1 msgA chatA (Json.bool true) rfl rfl rfl,
   ((quote_forward_cache_resolution wxTest [] envQuote 0
      rfl rfl rfl).1 rfl rfl rfl).1 rfl⟩
